import Mathlib

/-!
Shallow embedding of the CCTV recorder server (src/server.js).

The server keeps two string-keyed dictionaries: `recordProcesses`
(camId -> ffmpeg child process) and `activeCameras` (camId -> session
record).  We model JS objects as association lists with unique keys,
child-process handles as numeric pids, and the effectful parts
(disk-space query, stdin writes, filesystem stat) as explicit inputs.
-/

instance {ε α : Type} [DecidableEq ε] [DecidableEq α] : DecidableEq (Except ε α) :=
  fun x y =>
    match x, y with
    | .error a, .error b =>
      if h : a = b then isTrue (by rw [h]) else isFalse (by intro hh; cases hh; exact h rfl)
    | .error _, .ok _ => isFalse (by intro hh; cases hh)
    | .ok _, .error _ => isFalse (by intro hh; cases hh)
    | .ok a, .ok b =>
      if h : a = b then isTrue (by rw [h]) else isFalse (by intro hh; cases hh; exact h rfl)

namespace CCTV

/- ## JS-object helpers -/

def lookupKey {α : Type} (m : List (String × α)) (k : String) : Option α :=
  match m with
  | [] => none
  | (k1, v) :: rest => if k1 = k then some v else lookupKey rest k

def setKey {α : Type} (m : List (String × α)) (k : String) (v : α) :
    List (String × α) :=
  match m with
  | [] => [(k, v)]
  | (k1, v1) :: rest => if k1 = k then (k, v) :: rest else (k1, v1) :: setKey rest k v

/-- JS `delete obj[k]`. -/
def delKey {α : Type} (m : List (String × α)) (k : String) : List (String × α) :=
  match m with
  | [] => []
  | (k1, v1) :: rest => if k1 = k then delKey rest k else (k1, v1) :: delKey rest k

/-- JS `Object.keys(obj)`. -/
def keysOf {α : Type} (m : List (String × α)) : List String := m.map (·.1)

/-- JS `s || d` for strings: the default is used when `s` is empty (falsy). -/
def jsOr (s d : String) : String := if s = "" then d else s

/- ## sanitizeFilename (server.js lines 46-49) -/

/-- The character class `[<>:"/\\|?*\x00-\x1f]` of the sanitizer regex. -/
def isIllegalChar (c : Char) : Bool :=
  c == '<' || c == '>' || c == ':' || c == '\"' || c == '/' || c == '\\' ||
  c == '|' || c == '?' || c == '*' || decide (c.toNat ≤ 31)

/-- JS `String.prototype.trim`: strip leading and trailing whitespace. -/
def trimChars (l : List Char) : List Char :=
  ((l.dropWhile Char.isWhitespace).reverse.dropWhile Char.isWhitespace).reverse

/-- `sanitizeFilename(text)`: empty (falsy) input yields "Unknown"; otherwise
every character of the illegal class is replaced by an underscore and the
result is trimmed. -/
def sanitizeFilename (text : String) : String :=
  if text = "" then "Unknown"
  else String.mk (trimChars (text.toList.map (fun c => if isIllegalChar c then '_' else c)))

/-- `recordType === "out" ? "OUT" : "IN"` (server.js line 189). -/
def typeLabel (recordType : String) : String :=
  if recordType = "out" then "OUT" else "IN"

/- ## Disk admission guard (server.js lines 54-69) -/

def MIN_FREE_GB : ℚ := 20

/-- `getFreeSpaceGB`: free bytes on the volume divided by 1024^3.  The JS
double division by a power of two is exact, so ℚ models it faithfully. -/
def getFreeSpaceGB (freeBytes : ℚ) : ℚ := freeBytes / (1024 ^ 3)

/-- Outcome of the `checkDiskSpace` query, an input to the admission check. -/
inductive DiskQuery where
  | ok (freeBytes : ℚ)
  | failed
deriving DecidableEq

inductive DiskError where
  | insufficientDisk (freeGB : ℚ)
  | checkFailed
deriving DecidableEq

/-- `ensureEnoughDiskSpaceOrThrow`: throws `INSUFFICIENT_DISK` carrying the
observed free space when `freeGB < MIN_FREE_GB`, else returns `freeGB`. -/
def ensureEnoughDiskSpaceOrThrow (disk : DiskQuery) : Except DiskError ℚ :=
  match disk with
  | .failed => .error .checkFailed
  | .ok freeBytes =>
    let freeGB := getFreeSpaceGB freeBytes
    if freeGB < MIN_FREE_GB then .error (.insufficientDisk freeGB) else .ok freeGB

/- ## Recording session registry -/

/-- One `activeCameras[camId]` record (server.js lines 205-212). -/
structure Session where
  user : String
  billId : String
  startTime : Nat
  streamId : String
  filename : String
  outputPath : String
deriving DecidableEq

/-- The two global registries. -/
structure ServerState where
  recordProcesses : List (String × Nat)
  activeCameras : List (String × Session)
deriving DecidableEq

def RECORD_DIR : String := "recordings"

/-- The static `streams` table with fallback to entry `'1'` (lines 195-200). -/
def streamUrlFor (streamId : String) : String :=
  if streamId = "1" then "rtsp://localhost:8554/tapo2"
  else if streamId = "2" then "rtsp://localhost:8554/tapo3"
  else if streamId = "3" then "rtsp://localhost:8554/tapo1"
  else "rtsp://localhost:8554/tapo2"

inductive StartResponse where
  | missingCamId
  | conflict (heldBy : String)
  | insufficientDisk (freeGB : ℚ)
  | diskCheckFailed
  | started (camId : String) (filename : String)
deriving DecidableEq

/-- HTTP status of each start-record response (400 / 409 / 507 / 200). -/
def StartResponse.status : StartResponse → Nat
  | .missingCamId => 400
  | .conflict _ => 409
  | .insufficientDisk _ => 507
  | .diskCheckFailed => 507
  | .started _ _ => 200

/-- `POST /api/start-record` (server.js lines 161-240).  `disk` is the
outcome of the free-space query, `dateStr` the formatted timestamp, `now`
the clock reading and `pid` the handle of the spawned encoder process. -/
def startRecord (st : ServerState) (camId streamId user billId recordType : String)
    (disk : DiskQuery) (dateStr : String) (now pid : Nat) :
    ServerState × StartResponse :=
  if camId = "" then (st, .missingCamId)
  else
    match lookupKey st.recordProcesses camId with
    | some _ =>
      (st, .conflict (match lookupKey st.activeCameras camId with
        | some sess => jsOr sess.user "Unknown"
        | none => "Unknown"))
    | none =>
      match ensureEnoughDiskSpaceOrThrow disk with
      | .error (.insufficientDisk freeGB) => (st, .insufficientDisk freeGB)
      | .error .checkFailed => (st, .diskCheckFailed)
      | .ok _ =>
        let safeUser := sanitizeFilename (jsOr user "Unknown")
        let safeBill := sanitizeFilename (jsOr billId "NoBill")
        let tl := typeLabel recordType
        let filename := "CCTV_Cam" ++ camId ++ "_" ++ safeUser ++ "_" ++ safeBill
          ++ "_" ++ tl ++ "_" ++ dateStr ++ ".mp4"
        let outputPath := RECORD_DIR ++ "/" ++ filename
        let st1 : ServerState :=
          { recordProcesses := setKey st.recordProcesses camId pid,
            activeCameras := setKey st.activeCameras camId
              ⟨safeUser, safeBill, now, streamId, filename, outputPath⟩ }
        (st1, .started camId filename)

inductive StopResponse where
  | notRecordingAll
  | stoppingAll (stopped : List String)
  | missingCamId
  | notRecording (camId : String)
  | stopFailed (camId : String)
  | stopping (camId : String)
deriving DecidableEq

/-- HTTP status of each stop-record response (200 / 400 / 500). -/
def StopResponse.status : StopResponse → Nat
  | .notRecordingAll => 200
  | .stoppingAll _ => 200
  | .missingCamId => 400
  | .notRecording _ => 200
  | .stopFailed _ => 500
  | .stopping _ => 200

/-- `POST /api/stop-record` (server.js lines 245-288).  `writeOk camId`
tells whether `proc.stdin.write('q')` for that camera succeeds.  In the
`stopAll` branch write failures are caught and logged, and no registry
entry is deleted; in the single-camera branch a successful write deletes
both registry entries and a failed write returns 500 leaving them. -/
def stopRecord (st : ServerState) (camId : String) (stopAll : Bool)
    (writeOk : String → Bool) : ServerState × StopResponse :=
  if stopAll then
    let cams := keysOf st.recordProcesses
    if cams = [] then (st, .notRecordingAll)
    else (st, .stoppingAll cams)
  else if camId = "" then (st, .missingCamId)
  else
    match lookupKey st.recordProcesses camId with
    | none => (st, .notRecording camId)
    | some _ =>
      if writeOk camId then
        (⟨delKey st.recordProcesses camId, delKey st.activeCameras camId⟩,
         .stopping camId)
      else
        (st, .stopFailed camId)

/-- The `proc.on('close')` callback (server.js lines 233-237): deletes the
camera's entries from both registries. -/
def procClose (st : ServerState) (camId : String) : ServerState :=
  ⟨delKey st.recordProcesses camId, delKey st.activeCameras camId⟩

/-- The registries hold at most one entry per camera id. -/
def KeysNodup (st : ServerState) : Prop :=
  (keysOf st.recordProcesses).Nodup ∧ (keysOf st.activeCameras).Nodup

/- ## Tunnel supervision (server.js lines 345-483)

`extractTryCloudflareUrl` applies the regex
`/https:\/\/[a-z0-9-]+\.trycloudflare\.com/i` and returns the first match.
Because the host character class excludes the dot, the greedy run never
backtracks usefully, so leftmost-longest-run scanning reproduces the
regex semantics exactly. -/

/-- The class `[a-z0-9-]` under the case-insensitive flag. -/
def isHostChar (c : Char) : Bool :=
  (decide ('a' ≤ c.toLower) && decide (c.toLower ≤ 'z')) ||
  (decide ('0' ≤ c) && decide (c ≤ '9')) || c == '-'

/-- Case-insensitive prefix test (the regex carries the `i` flag). -/
def ciPrefix : List Char → List Char → Bool
  | [], _ => true
  | _ :: _, [] => false
  | p :: ps, c :: cs => p.toLower == c.toLower && ciPrefix ps cs

/-- Try to match the URL pattern at the start of `cs`; return the matched
characters (with their original casing, as JS `m[0]` does). -/
def tryMatchAt (cs : List Char) : Option (List Char) :=
  if ciPrefix ("https://".toList) cs then
    let rest := cs.drop 8
    let run := rest.takeWhile isHostChar
    if 0 < run.length && ciPrefix (".trycloudflare.com".toList) (rest.drop run.length) then
      some (cs.take (8 + run.length + 18))
    else none
  else none

/-- Leftmost match of the pattern anywhere in the text. -/
def findUrlMatch : List Char → Option (List Char)
  | [] => none
  | c :: cs =>
    match tryMatchAt (c :: cs) with
    | some m => some m
    | none => findUrlMatch cs

/-- `extractTryCloudflareUrl` (server.js lines 375-378). -/
def extractTryCloudflareUrl (text : String) : Option String :=
  (findUrlMatch text.toList).map String.mk

/-- The body of the tunnel `onData` handlers (lines 422-427, 430-435,
461-466, 468-474): `const url = extractTryCloudflareUrl(s); if (url)
tunnelXxxUrl = url;`. -/
def tunnelOnData (cached : Option String) (chunk : String) : Option String :=
  match extractTryCloudflareUrl chunk with
  | some url => some url
  | none => cached

/-- The per-tunnel supervisor state (`tunnelApiProc`/`tunnelApiUrl`, and
identically `tunnelCamProc`/`tunnelCamUrl`). -/
structure TunnelState where
  running : Bool
  url : Option String
deriving DecidableEq

inductive TunnelEvent where
  | start
  | data (chunk : String)
  | close
deriving DecidableEq

/-- Tunnel lifecycle: `startTunnelApi`/`startTunnelCam` clear the cached
URL and spawn unless already running (lines 407-420, 446-459); output
chunks run the `onData` handler; the `close` callback nulls the process
and the URL (lines 437-441, 476-480). -/
def tunnelStep (s : TunnelState) (e : TunnelEvent) : TunnelState :=
  match e with
  | .start => if s.running then s else { running := true, url := none }
  | .data chunk => if s.running then { s with url := tunnelOnData s.url chunk } else s
  | .close => { running := false, url := none }

def tunnelRun (events : List TunnelEvent) : TunnelState :=
  events.foldl tunnelStep ⟨false, none⟩

/- ## Byte-range media serving (server.js lines 115-155) -/

/-- JS `str.replace(pat, '')` with a non-global pattern: remove the first
occurrence of `pat`. -/
def stripFirst (pat : List Char) : List Char → List Char
  | [] => []
  | c :: cs => if pat.isPrefixOf (c :: cs) then (c :: cs).drop pat.length else c :: stripFirst pat cs

/-- JS `str.split(sep)` for a single-character separator. -/
def splitOnChar (sep : Char) : List Char → List (List Char)
  | [] => [[]]
  | c :: cs =>
    let r := splitOnChar sep cs
    if c = sep then [] :: r
    else
      match r with
      | h :: t => (c :: h) :: t
      | [] => [[c]]

def digitsVal (ds : List Char) : Nat :=
  ds.foldl (fun a c => a * 10 + (c.toNat - '0'.toNat)) 0

def parseDigits (cs : List Char) : Option Nat :=
  let ds := cs.takeWhile Char.isDigit
  if ds = [] then none else some (digitsVal ds)

/-- JS `parseInt(s, 10)`: skip leading whitespace, optional sign, then
leading digits; `none` models NaN. -/
def jsParseInt (cs : List Char) : Option Int :=
  let t := cs.dropWhile Char.isWhitespace
  match t with
  | '-' :: rest => (parseDigits rest).map (fun n => -(n : Int))
  | '+' :: rest => (parseDigits rest).map (fun n => (n : Int))
  | _ => (parseDigits t).map (fun n => (n : Int))

/-- `parseInt(parts[0], 10)` (line 137). -/
def parseStart (parts : List (List Char)) : Option Int :=
  jsParseInt (parts.headD [])

/-- `parts[1] ? parseInt(parts[1], 10) : fileSize - 1` (line 138): an
absent or empty second part is falsy and defaults to `fileSize - 1`. -/
def parseEnd (parts : List (List Char)) (fileSize : Int) : Option Int :=
  match parts[1]? with
  | some p1 => if p1 = [] then some (fileSize - 1) else jsParseInt p1
  | none => some (fileSize - 1)

/-- `start >= fileSize` in JS: false when `start` is NaN. -/
def startGe (s1 : Option Int) (fileSize : Int) : Bool :=
  match s1 with
  | some s => decide (fileSize ≤ s)
  | none => false

/-- JS number-to-string interpolation; NaN prints as "NaN". -/
def jsNumStr (n : Option Int) : String :=
  match n with
  | some v => v.repr
  | none => "NaN"

/-- The response of `GET /recordings/:file`: status, the `Content-Range`,
`Accept-Ranges` and `Content-Length` headers, and the streamed bytes.
(The `Content-Type`/`Content-Disposition` headers and the textual 416
body are presentation-only and not modelled.) -/
structure RangeResponse where
  status : Nat
  contentRange : Option String
  acceptRanges : Option String
  contentLength : Option Int
  body : List Nat
deriving DecidableEq

/-- `fs.createReadStream(filePath, { start, end })`: inclusive byte span,
truncated at end of file; a negative `start` or `end < start` raises a
stream error and delivers no bytes. -/
def readStreamSlice (file : List Nat) (s e : Int) : List Nat :=
  if 0 ≤ s ∧ s ≤ e then (file.drop s.toNat).take (e - s + 1).toNat else []

/-- Lines 136-154, after the range header has been split into parts. -/
def serveWithParts (file : List Nat) (parts : List (List Char)) : RangeResponse :=
  let fileSize : Int := file.length
  let start1 := parseStart parts
  let end1 := parseEnd parts fileSize
  if startGe start1 fileSize then
    ⟨416, none, none, none, []⟩
  else
    { status := 206
      contentRange := some ("bytes " ++ jsNumStr start1 ++ "-" ++ jsNumStr end1
        ++ "/" ++ fileSize.repr)
      acceptRanges := some "bytes"
      contentLength :=
        match start1, end1 with
        | some s, some e => some (e - s + 1)
        | _, _ => none
      body :=
        match start1, end1 with
        | some s, some e => readStreamSlice file s e
        | _, _ => [] }

/-- `GET /recordings/:file` for an existing file of contents `file`
(lines 123-155): without a `Range` header the whole file is sent with
status 200; otherwise the header is stripped of `bytes=`, split on the
dash and served as a range. -/
def serveRecording (file : List Nat) (range : Option String) : RangeResponse :=
  match range with
  | none => ⟨200, none, none, some (file.length : Int), file⟩
  | some r => serveWithParts file (splitOnChar '-' (stripFirst ("bytes=".toList) r.toList))

/- ## Video catalog listing (server.js lines 293-326) -/

structure FStat where
  size : Nat
  birthtime : Nat
deriving DecidableEq

/-- One catalog entry. (The URL-encoded path, the "x.xx MB" string and the
localized date/time strings are formatting derived from `filename`,
`size` and `created` and are not modelled.) -/
structure VideoEntry where
  filename : String
  size : Nat
  created : Nat
deriving DecidableEq

/-- JS `String.prototype.endsWith`. -/
def endsWithL (suffix : String) (s : String) : Bool :=
  suffix.toList.isSuffixOf s.toList

/-- The `.map(...)` body over the mp4-filtered file list (lines 299-320):
`fs.statSync` may throw (modelled by `Except.error`), aborting the whole
handler; a zero-size file maps to `null` (`none`). -/
def statScan (stat : String → Except Unit FStat) :
    List String → Except Unit (List (Option VideoEntry))
  | [] => .ok []
  | f :: fs =>
    match stat f with
    | .error e => .error e
    | .ok st =>
      match statScan stat fs with
      | .error e => .error e
      | .ok rest =>
        .ok ((if st.size = 0 then none else some ⟨f, st.size, st.birthtime⟩) :: rest)

/-- `.sort((a, b) => b.created - a.created)`: descending by creation time. -/
def insertByCreated (e : VideoEntry) : List VideoEntry → List VideoEntry
  | [] => [e]
  | x :: xs => if e.created ≤ x.created then x :: insertByCreated e xs else e :: x :: xs

def sortByCreatedDesc (l : List VideoEntry) : List VideoEntry :=
  l.foldl (fun acc e => insertByCreated e acc) []

/-- `GET /api/videos` (lines 293-326): a `readdir` error answers `[]`;
otherwise the mp4 files are statted (a throwing `statSync` aborts the
handler with no response, `Except.error`), nulls are filtered out
(`.filter(Boolean)`) and the entries sorted descending by creation. -/
def listVideos (dir : Except Unit (List String)) (stat : String → Except Unit FStat) :
    Except Unit (List VideoEntry) :=
  match dir with
  | .error _ => .ok []
  | .ok files =>
    match statScan stat (files.filter (fun f => endsWithL ".mp4" f)) with
    | .error e => .error e
    | .ok entries => .ok (sortByCreatedDesc (entries.filterMap id))

/- ## Helper lemmas -/

lemma lookupKey_delKey_self {α : Type} (m : List (String × α)) (k : String) :
    lookupKey (delKey m k) k = none := by
  induction m with
  | nil => rfl
  | cons p rest ih =>
    obtain ⟨k1, v1⟩ := p
    by_cases h : k1 = k
    · simp [delKey, h, ih]
    · simp [delKey, lookupKey, h, ih]

lemma keysOf_cons {α : Type} (k1 : String) (v1 : α) (rest : List (String × α)) :
    keysOf ((k1, v1) :: rest) = k1 :: keysOf rest := rfl

lemma mem_keysOf_setKey {α : Type} {m : List (String × α)} {k a : String} {v : α}
    (h : a ∈ keysOf (setKey m k v)) : a = k ∨ a ∈ keysOf m := by
  induction m with
  | nil =>
    have h2 : a ∈ [k] := h
    exact Or.inl (List.mem_singleton.mp h2)
  | cons p rest ih =>
    obtain ⟨k1, v1⟩ := p
    by_cases hk : k1 = k
    · rw [show setKey ((k1, v1) :: rest) k v = (k, v) :: rest from by simp [setKey, hk]] at h
      rw [keysOf_cons] at h
      rcases List.mem_cons.mp h with h1 | h1
      · exact Or.inl h1
      · exact Or.inr (by rw [keysOf_cons]; exact List.mem_cons_of_mem _ h1)
    · rw [show setKey ((k1, v1) :: rest) k v = (k1, v1) :: setKey rest k v from by
        simp [setKey, hk]] at h
      rw [keysOf_cons] at h
      rcases List.mem_cons.mp h with h1 | h1
      · exact Or.inr (by rw [keysOf_cons]; exact List.mem_cons.mpr (Or.inl h1))
      · rcases ih h1 with h2 | h2
        · exact Or.inl h2
        · exact Or.inr (by rw [keysOf_cons]; exact List.mem_cons_of_mem _ h2)

lemma nodup_keysOf_setKey {α : Type} (m : List (String × α)) (k : String) (v : α)
    (h : (keysOf m).Nodup) : (keysOf (setKey m k v)).Nodup := by
  induction m with
  | nil => exact List.nodup_singleton k
  | cons p rest ih =>
    obtain ⟨k1, v1⟩ := p
    rw [keysOf_cons, List.nodup_cons] at h
    by_cases hk : k1 = k
    · rw [show setKey ((k1, v1) :: rest) k v = (k, v) :: rest from by simp [setKey, hk]]
      rw [keysOf_cons, List.nodup_cons]
      exact ⟨hk ▸ h.1, h.2⟩
    · rw [show setKey ((k1, v1) :: rest) k v = (k1, v1) :: setKey rest k v from by
        simp [setKey, hk]]
      rw [keysOf_cons, List.nodup_cons]
      refine ⟨?_, ih h.2⟩
      intro hmem
      rcases mem_keysOf_setKey hmem with h1 | h1
      · exact hk h1
      · exact h.1 h1

lemma startRecord_preserves_nodup (st : ServerState)
    (camId streamId user billId recordType : String) (disk : DiskQuery)
    (dateStr : String) (now pid : Nat) (h : KeysNodup st) :
    KeysNodup (startRecord st camId streamId user billId recordType disk dateStr now pid).1 := by
  unfold startRecord
  split
  · exact h
  split
  · exact h
  split
  · exact h
  · exact h
  · exact ⟨nodup_keysOf_setKey _ _ _ h.1, nodup_keysOf_setKey _ _ _ h.2⟩

/- ## Claim theorems -/

/-- C2: a start-record request for a camera id that already has a live
session fails with Conflict (409) carrying the holding user's label,
regardless of the disk-space query's outcome (the exclusivity check runs
first), leaves the state unchanged (no session created, no process
spawned); and startRecord preserves the at-most-one-session-per-camera-id
invariant of the registries. -/
theorem start_conflict_exclusive (st : ServerState) (camId : String) (p : Nat)
    (sess : Session)
    (hcam : camId ≠ "")
    (hproc : lookupKey st.recordProcesses camId = some p)
    (hsess : lookupKey st.activeCameras camId = some sess)
    (huser : sess.user ≠ "") :
    (∀ streamId user billId recordType disk dateStr now pid,
      startRecord st camId streamId user billId recordType disk dateStr now pid
        = (st, .conflict sess.user)
      ∧ (StartResponse.conflict sess.user).status = 409)
    ∧ (∀ (st1 : ServerState) camId1 streamId user billId recordType disk dateStr now pid,
      KeysNodup st1 →
      KeysNodup (startRecord st1 camId1 streamId user billId recordType disk dateStr now pid).1) := by
  constructor
  · intro streamId user billId recordType disk dateStr now pid
    refine ⟨?_, rfl⟩
    simp only [startRecord, if_neg hcam, hproc, hsess, jsOr, if_neg huser]
  · intro st1 camId1 streamId user billId recordType disk dateStr now pid h
    exact startRecord_preserves_nodup st1 camId1 streamId user billId recordType disk dateStr now pid h

theorem start_conflict_exclusive_witness :
    startRecord ⟨[("1", 7)], [("1", ⟨"Alice", "B1", 0, "1", "f.mp4", "recordings/f.mp4"⟩)]⟩
      "1" "1" "Bob" "X" "in" (.ok 0) "2024-01-01_00-00-00" 0 9
      = (⟨[("1", 7)], [("1", ⟨"Alice", "B1", 0, "1", "f.mp4", "recordings/f.mp4"⟩)]⟩,
         .conflict "Alice") :=
  ((start_conflict_exclusive
      ⟨[("1", 7)], [("1", ⟨"Alice", "B1", 0, "1", "f.mp4", "recordings/f.mp4"⟩)]⟩
      "1" 7 ⟨"Alice", "B1", 0, "1", "f.mp4", "recordings/f.mp4"⟩
      (by decide) rfl rfl (by decide)).1
    "1" "Bob" "X" "in" (.ok 0) "2024-01-01_00-00-00" 0 9).1

/-- C6: stopping a camera with a live session removes it from both
registries and answers `stopping` when the stdin write succeeds; when the
write fails it answers a 500 error and leaves the state unchanged. -/
theorem stop_live_session (st : ServerState) (camId : String) (p : Nat)
    (writeOk : String → Bool)
    (hcam : camId ≠ "")
    (hproc : lookupKey st.recordProcesses camId = some p) :
    (writeOk camId = true →
      stopRecord st camId false writeOk
        = (⟨delKey st.recordProcesses camId, delKey st.activeCameras camId⟩, .stopping camId)
      ∧ lookupKey (stopRecord st camId false writeOk).1.recordProcesses camId = none
      ∧ lookupKey (stopRecord st camId false writeOk).1.activeCameras camId = none)
    ∧ (writeOk camId = false →
      stopRecord st camId false writeOk = (st, .stopFailed camId)
      ∧ (StopResponse.stopFailed camId).status = 500) := by
  constructor
  · intro hw
    have heq : stopRecord st camId false writeOk
        = (⟨delKey st.recordProcesses camId, delKey st.activeCameras camId⟩, .stopping camId) := by
      simp only [stopRecord, Bool.false_eq_true, if_false, if_neg hcam, hproc, hw, if_true]
    refine ⟨heq, ?_, ?_⟩
    · rw [heq]; exact lookupKey_delKey_self _ _
    · rw [heq]; exact lookupKey_delKey_self _ _
  · intro hw
    refine ⟨?_, rfl⟩
    simp only [stopRecord, Bool.false_eq_true, if_false, if_neg hcam, hproc, hw]

theorem stop_live_session_witness :
    stopRecord ⟨[("1", 7)], [("1", ⟨"Alice", "B1", 0, "1", "f.mp4", "recordings/f.mp4"⟩)]⟩
      "1" false (fun _ => true) = (⟨[], []⟩, .stopping "1")
    ∧ stopRecord ⟨[("1", 7)], [("1", ⟨"Alice", "B1", 0, "1", "f.mp4", "recordings/f.mp4"⟩)]⟩
      "1" false (fun _ => false)
      = (⟨[("1", 7)], [("1", ⟨"Alice", "B1", 0, "1", "f.mp4", "recordings/f.mp4"⟩)]⟩,
         .stopFailed "1") :=
  ⟨((stop_live_session ⟨[("1", 7)], [("1", ⟨"Alice", "B1", 0, "1", "f.mp4", "recordings/f.mp4"⟩)]⟩
      "1" 7 (fun _ => true) (by decide) rfl).1 rfl).1,
   ((stop_live_session ⟨[("1", 7)], [("1", ⟨"Alice", "B1", 0, "1", "f.mp4", "recordings/f.mp4"⟩)]⟩
      "1" 7 (fun _ => false) (by decide) rfl).2 rfl).1⟩

/-- C7: stopping a camera id with no live session answers a non-error
`not recording` result (status 200, never 500) and leaves both
registries unchanged; stop is idempotent on an already-stopped camera. -/
theorem stop_no_session (st : ServerState) (camId : String) (writeOk : String → Bool)
    (hcam : camId ≠ "")
    (hproc : lookupKey st.recordProcesses camId = none) :
    stopRecord st camId false writeOk = (st, .notRecording camId)
    ∧ (StopResponse.notRecording camId).status = 200 := by
  refine ⟨?_, rfl⟩
  simp only [stopRecord, Bool.false_eq_true, if_false, if_neg hcam, hproc]

theorem stop_no_session_witness :
    stopRecord ⟨[("2", 7)], []⟩ "1" false (fun _ => true) = (⟨[("2", 7)], []⟩, .notRecording "1") :=
  (stop_no_session ⟨[("2", 7)], []⟩ "1" (fun _ => true) (by decide) rfl).1

/-- C9: the direction tag of the derived filename is "OUT" exactly when
recordType is the lowercase string "out"; any other value ("OUT", "Out",
"in", or an absent recordType, i.e. the empty string) yields "IN". -/
theorem type_label_out_iff :
    (∀ recordType : String, typeLabel recordType = "OUT" ↔ recordType = "out")
    ∧ typeLabel "OUT" = "IN" ∧ typeLabel "Out" = "IN"
    ∧ typeLabel "in" = "IN" ∧ typeLabel "" = "IN" := by
  refine ⟨?_, by decide, by decide, by decide, by decide⟩
  intro recordType
  constructor
  · intro h
    by_contra hne
    simp only [typeLabel, if_neg hne] at h
    exact absurd h (by decide)
  · intro h
    simp [typeLabel, h]

theorem type_label_out_iff_witness : typeLabel "out" = "OUT" :=
  (type_label_out_iff.1 "out").mpr rfl

/-- C10: a stopAll stop-record request changes neither registry (entries
are only removed later by the asynchronous close callback, modelled by
procClose); when sessions are active it answers `stopping_all` with the
list of all active camera ids, and the close callback for a camera
removes that camera from both registries. -/
theorem stop_all_frame (st : ServerState) (camId : String) (writeOk : String → Bool) :
    (stopRecord st camId true writeOk).1 = st
    ∧ (keysOf st.recordProcesses ≠ [] →
        (stopRecord st camId true writeOk).2 = .stoppingAll (keysOf st.recordProcesses))
    ∧ (keysOf st.recordProcesses = [] →
        (stopRecord st camId true writeOk).2 = .notRecordingAll)
    ∧ (∀ cid, lookupKey (procClose st cid).recordProcesses cid = none
        ∧ lookupKey (procClose st cid).activeCameras cid = none) := by
  refine ⟨?_, ?_, ?_, ?_⟩
  · simp only [stopRecord, if_true]
    split <;> rfl
  · intro h
    simp only [stopRecord, if_true, if_neg h]
  · intro h
    simp only [stopRecord, if_true, if_pos h]
  · intro cid
    exact ⟨lookupKey_delKey_self _ _, lookupKey_delKey_self _ _⟩

theorem stop_all_frame_witness :
    (stopRecord ⟨[("1", 7), ("2", 8)], []⟩ "" true (fun _ => true)).1 = ⟨[("1", 7), ("2", 8)], []⟩
    ∧ (stopRecord ⟨[("1", 7), ("2", 8)], []⟩ "" true (fun _ => true)).2
        = .stoppingAll ["1", "2"] :=
  ⟨(stop_all_frame ⟨[("1", 7), ("2", 8)], []⟩ "" (fun _ => true)).1,
   (stop_all_frame ⟨[("1", 7), ("2", 8)], []⟩ "" (fun _ => true)).2.1 (by decide)⟩

/-- C1 counterexample: after the first chunk caches
`https://aaa.trycloudflare.com`, a later chunk holding a different
trycloudflare hostname changes the cached URL, so later chunks are not
ignored. -/
theorem tunnel_url_overwrite_cex :
    (tunnelRun [.start, .data "connect https://aaa.trycloudflare.com ok"]).url
      = some "https://aaa.trycloudflare.com"
    ∧ (tunnelRun [.start, .data "connect https://aaa.trycloudflare.com ok",
        .data "reconnect https://bbb.trycloudflare.com ok"]).url
      ≠ (tunnelRun [.start, .data "connect https://aaa.trycloudflare.com ok"]).url := by
  decide

/-- C1 (amended): for tunnel-kind supervised processes the cached public
URL is last-match-wins: every output chunk containing a trycloudflare
hostname overwrites the cached URL with that chunk's first match, a chunk
without a match leaves it unchanged, and the URL is cleared when the
process exits or is restarted. -/
theorem tunnel_url_last_match (s : TunnelState) (chunk : String)
    (hrun : s.running = true) :
    (∀ u, extractTryCloudflareUrl chunk = some u →
      (tunnelStep s (.data chunk)).url = some u)
    ∧ (extractTryCloudflareUrl chunk = none →
      (tunnelStep s (.data chunk)).url = s.url)
    ∧ (tunnelStep s .close).url = none
    ∧ (∀ u0, (tunnelStep ⟨false, u0⟩ .start).url = none) := by
  refine ⟨?_, ?_, rfl, fun u0 => rfl⟩
  · intro u hu
    simp [tunnelStep, hrun, tunnelOnData, hu]
  · intro hu
    simp [tunnelStep, hrun, tunnelOnData, hu]

/-- C1 amended-claim witness at a concrete overwrite. -/
theorem tunnel_url_last_match_witness :
    (tunnelStep ⟨true, some "https://aaa.trycloudflare.com"⟩
      (.data "https://bbb.trycloudflare.com")).url = some "https://bbb.trycloudflare.com" :=
  (tunnel_url_last_match ⟨true, some "https://aaa.trycloudflare.com"⟩
    "https://bbb.trycloudflare.com" rfl).1 "https://bbb.trycloudflare.com" (by decide)

lemma getFreeSpaceGB_scaled (g : ℚ) : getFreeSpaceGB (g * 1024 ^ 3) = g := by
  unfold getFreeSpaceGB
  rw [mul_div_assoc]
  norm_num

lemma startRecord_admitted (st : ServerState)
    (camId streamId user billId recordType dateStr : String) (now pid : Nat)
    (freeBytes : ℚ)
    (hcam : camId ≠ "") (hproc : lookupKey st.recordProcesses camId = none)
    (hfree : ¬ getFreeSpaceGB freeBytes < 20) :
    startRecord st camId streamId user billId recordType (.ok freeBytes) dateStr now pid
      = ({ recordProcesses := setKey st.recordProcesses camId pid,
           activeCameras := setKey st.activeCameras camId
             { user := sanitizeFilename (jsOr user "Unknown"),
               billId := sanitizeFilename (jsOr billId "NoBill"),
               startTime := now, streamId := streamId,
               filename := "CCTV_Cam" ++ camId ++ "_" ++ sanitizeFilename (jsOr user "Unknown")
                 ++ "_" ++ sanitizeFilename (jsOr billId "NoBill") ++ "_" ++ typeLabel recordType
                 ++ "_" ++ dateStr ++ ".mp4",
               outputPath := RECORD_DIR ++ "/" ++ ("CCTV_Cam" ++ camId ++ "_"
                 ++ sanitizeFilename (jsOr user "Unknown") ++ "_"
                 ++ sanitizeFilename (jsOr billId "NoBill") ++ "_" ++ typeLabel recordType
                 ++ "_" ++ dateStr ++ ".mp4") } },
         .started camId ("CCTV_Cam" ++ camId ++ "_" ++ sanitizeFilename (jsOr user "Unknown")
           ++ "_" ++ sanitizeFilename (jsOr billId "NoBill") ++ "_" ++ typeLabel recordType
           ++ "_" ++ dateStr ++ ".mp4")) := by
  have hens : ensureEnoughDiskSpaceOrThrow (.ok freeBytes) = .ok (getFreeSpaceGB freeBytes) := by
    simp only [ensureEnoughDiskSpaceOrThrow, MIN_FREE_GB]
    rw [if_neg hfree]
  simp only [startRecord, if_neg hcam, hproc, hens]

/-- C4: for a request that passed the camId and exclusivity checks, the
disk admission fails with InsufficientDiskSpace (507) carrying the
observed free space exactly when the free space is strictly below the
20 GB threshold; at or above the threshold the admission check succeeds,
returns the free space, and the request starts. -/
theorem start_disk_admission (st : ServerState)
    (camId streamId user billId recordType dateStr : String) (now pid : Nat)
    (freeBytes : ℚ)
    (hcam : camId ≠ "")
    (hproc : lookupKey st.recordProcesses camId = none) :
    (ensureEnoughDiskSpaceOrThrow (.ok freeBytes)
        = .error (.insufficientDisk (getFreeSpaceGB freeBytes))
      ↔ getFreeSpaceGB freeBytes < 20)
    ∧ (¬ getFreeSpaceGB freeBytes < 20 →
      ensureEnoughDiskSpaceOrThrow (.ok freeBytes) = .ok (getFreeSpaceGB freeBytes))
    ∧ ((startRecord st camId streamId user billId recordType (.ok freeBytes) dateStr now pid).2
        = .insufficientDisk (getFreeSpaceGB freeBytes)
      ↔ getFreeSpaceGB freeBytes < 20)
    ∧ (getFreeSpaceGB freeBytes < 20 →
      startRecord st camId streamId user billId recordType (.ok freeBytes) dateStr now pid
        = (st, .insufficientDisk (getFreeSpaceGB freeBytes))
      ∧ (StartResponse.insufficientDisk (getFreeSpaceGB freeBytes)).status = 507)
    ∧ (¬ getFreeSpaceGB freeBytes < 20 →
      ∃ fname,
        (startRecord st camId streamId user billId recordType (.ok freeBytes) dateStr now pid).2
          = .started camId fname) := by
  by_cases hlt : getFreeSpaceGB freeBytes < 20
  · have hens : ensureEnoughDiskSpaceOrThrow (.ok freeBytes)
        = .error (.insufficientDisk (getFreeSpaceGB freeBytes)) := by
      simp only [ensureEnoughDiskSpaceOrThrow, MIN_FREE_GB]
      rw [if_pos hlt]
    have hstart : startRecord st camId streamId user billId recordType (.ok freeBytes) dateStr now pid
        = (st, .insufficientDisk (getFreeSpaceGB freeBytes)) := by
      simp only [startRecord, if_neg hcam, hproc, hens]
    refine ⟨⟨fun _ => hlt, fun _ => hens⟩, fun h => absurd hlt h,
      ⟨fun _ => hlt, fun _ => by rw [hstart]⟩, fun _ => ⟨hstart, rfl⟩, fun h => absurd hlt h⟩
  · have hens : ensureEnoughDiskSpaceOrThrow (.ok freeBytes) = .ok (getFreeSpaceGB freeBytes) := by
      simp only [ensureEnoughDiskSpaceOrThrow, MIN_FREE_GB]
      rw [if_neg hlt]
    have hstart := startRecord_admitted st camId streamId user billId recordType dateStr now pid
      freeBytes hcam hproc hlt
    refine ⟨⟨fun h => ?_, fun h => absurd h hlt⟩, fun _ => hens,
      ⟨fun h => ?_, fun h => absurd h hlt⟩, fun h => absurd h hlt, fun _ => ⟨_, by rw [hstart]⟩⟩
    · rw [hens] at h
      cases h
    · rw [hstart] at h
      cases h

/-- C4 witness: 19 GB free is refused with 507 carrying the free space,
21 GB free is admitted. -/
theorem start_disk_admission_witness :
    (startRecord ⟨[], []⟩ "1" "1" "u" "b" "in" (.ok (19 * 1024 ^ 3)) "d" 0 9).2
      = .insufficientDisk (getFreeSpaceGB (19 * 1024 ^ 3))
    ∧ getFreeSpaceGB (19 * 1024 ^ 3) < 20
    ∧ (∃ fname, (startRecord ⟨[], []⟩ "1" "1" "u" "b" "in" (.ok (21 * 1024 ^ 3)) "d" 0 9).2
        = .started "1" fname) := by
  have h19 : getFreeSpaceGB ((19 : ℚ) * 1024 ^ 3) < 20 := by
    rw [getFreeSpaceGB_scaled]
    decide
  have h21 : ¬ getFreeSpaceGB ((21 : ℚ) * 1024 ^ 3) < 20 := by
    rw [getFreeSpaceGB_scaled]
    decide
  refine ⟨?_, h19, ?_⟩
  · exact (start_disk_admission ⟨[], []⟩ "1" "1" "u" "b" "in" "d" 0 9 (19 * 1024 ^ 3)
      (by decide) rfl).2.2.1.mpr h19
  · exact (start_disk_admission ⟨[], []⟩ "1" "1" "u" "b" "in" "d" 0 9 (21 * 1024 ^ 3)
      (by decide) rfl).2.2.2.2 h21

/-- Modelled from the spec, for refinement comparison with the code's
sanitizer: "Sanitization replaces filesystem-illegal and control
characters with an underscore and trims whitespace; empty user/bill
labels default to Unknown/NoBill." -/
def sanitizeSpec (deflt text : String) : String :=
  if text = "" then deflt
  else String.mk (trimChars (text.toList.map (fun c => if isIllegalChar c then '_' else c)))

lemma sanitize_jsOr (d t : String) (hd : sanitizeFilename d = d) :
    sanitizeFilename (jsOr t d) = sanitizeSpec d t := by
  by_cases h : t = ""
  · simp [jsOr, h, sanitizeSpec, hd]
  · simp [jsOr, h, sanitizeSpec, sanitizeFilename]

/-- C5: an admitted start request derives the output filename
`CCTV_Cam<camId>_<sanitized user>_<sanitized billId>_<IN|OUT>_<timestamp>.mp4`,
where sanitization (as the spec words it) replaces filesystem-illegal and
control characters with an underscore, trims whitespace, and defaults
empty user/bill labels to Unknown/NoBill. -/
theorem start_filename_derivation (st : ServerState)
    (camId streamId user billId recordType dateStr : String) (now pid : Nat)
    (freeBytes : ℚ)
    (hcam : camId ≠ "") (hproc : lookupKey st.recordProcesses camId = none)
    (hfree : ¬ getFreeSpaceGB freeBytes < 20) :
    (startRecord st camId streamId user billId recordType (.ok freeBytes) dateStr now pid).2
      = .started camId ("CCTV_Cam" ++ camId ++ "_" ++ sanitizeSpec "Unknown" user ++ "_"
          ++ sanitizeSpec "NoBill" billId ++ "_" ++ typeLabel recordType ++ "_"
          ++ dateStr ++ ".mp4") := by
  rw [startRecord_admitted st camId streamId user billId recordType dateStr now pid freeBytes
    hcam hproc hfree]
  rw [sanitize_jsOr "Unknown" user (by decide), sanitize_jsOr "NoBill" billId (by decide)]

/-- C5 witness: the spec's concrete instance, with the illegal characters
of "John/Doe" and "A:1" replaced by underscores and the OUT tag. -/
theorem start_filename_derivation_witness :
    (startRecord ⟨[], []⟩ "2" "1" "John/Doe" "A:1" "out" (.ok (21 * 1024 ^ 3))
      "2024-01-01_00-00-00" 0 9).2
      = .started "2" "CCTV_Cam2_John_Doe_A_1_OUT_2024-01-01_00-00-00.mp4" := by
  have h := start_filename_derivation ⟨[], []⟩ "2" "1" "John/Doe" "A:1" "out"
    "2024-01-01_00-00-00" 0 9 (21 * 1024 ^ 3) (by decide) rfl
    (by rw [getFreeSpaceGB_scaled]; decide)
  rw [h]
  decide

lemma statScan_error (stat : String → Except Unit FStat) (l : List String)
    (h : ∃ f ∈ l, stat f = .error ()) : statScan stat l = .error () := by
  induction l with
  | nil =>
    rcases h with ⟨f, hf, _⟩
    cases hf
  | cons a rest ih =>
    rcases h with ⟨f, hf, herr⟩
    rcases List.mem_cons.mp hf with h1 | h1
    · subst h1
      simp [statScan, herr]
    · cases hstat : stat a with
      | error e =>
        cases e
        simp [statScan, hstat]
      | ok s =>
        have hrest := ih ⟨f, h1, herr⟩
        simp [statScan, hstat, hrest]

/-- C8 counterexample: with one mp4 file whose metadata lookup fails, the
listing aborts with an error instead of returning an empty successful
list. -/
theorem videos_stat_failure_cex :
    listVideos (.ok ["a.mp4"]) (fun _ => .error ()) = .error ()
    ∧ listVideos (.ok ["a.mp4"]) (fun _ => .error ())
      ≠ .ok ([] : List VideoEntry) := by
  decide

/-- C8 (amended): a directory read failure yields an empty list as a
successful response, but a per-file metadata lookup failure during the
scan is unhandled and aborts the handler with an error rather than
yielding an empty list. -/
theorem videos_failure_behavior :
    (∀ stat : String → Except Unit FStat, listVideos (.error ()) stat = .ok [])
    ∧ (∀ (files : List String) (stat : String → Except Unit FStat),
      (∃ f ∈ files.filter (fun f => endsWithL ".mp4" f), stat f = .error ()) →
      listVideos (.ok files) stat = .error ()) := by
  refine ⟨fun _ => rfl, ?_⟩
  intro files stat h
  have hsc := statScan_error stat _ h
  simp [listVideos, hsc]

/-- C8 amended-claim witness at concrete inputs. -/
theorem videos_failure_behavior_witness :
    listVideos (.error ()) (fun _ => .ok ⟨3, 7⟩) = .ok []
    ∧ listVideos (.ok ["a.mp4"]) (fun _ => .error ()) = .error () :=
  ⟨videos_failure_behavior.1 _,
   videos_failure_behavior.2 ["a.mp4"] (fun _ => .error ()) ⟨"a.mp4", by decide, rfl⟩⟩

lemma serveWithParts_416 (file : List Nat) (parts : List (List Char)) (s : Int)
    (hs : parseStart parts = some s) (h : (file.length : Int) ≤ s) :
    serveWithParts file parts = ⟨416, none, none, none, []⟩ := by
  simp only [serveWithParts, hs, startGe, decide_eq_true_eq]
  rw [if_pos h]

lemma serveWithParts_parsed (file : List Nat) (parts : List (List Char)) (s e : Int)
    (hs : parseStart parts = some s) (he : parseEnd parts (file.length : Int) = some e) :
    serveWithParts file parts =
      if (file.length : Int) ≤ s then ⟨416, none, none, none, []⟩
      else ⟨206, some ("bytes " ++ s.repr ++ "-" ++ e.repr ++ "/" ++ ((file.length : Int)).repr),
            some "bytes", some (e - s + 1), readStreamSlice file s e⟩ := by
  simp only [serveWithParts, hs, he, startGe, jsNumStr, decide_eq_true_eq]

lemma readStreamSlice_eq (file : List Nat) (s e : Int) (hs0 : 0 ≤ s) :
    readStreamSlice file s e = (file.drop s.toNat).take (e - s + 1).toNat := by
  unfold readStreamSlice
  by_cases h : s ≤ e
  · rw [if_pos ⟨hs0, h⟩]
  · rw [if_neg (fun hh => h hh.2), Int.toNat_eq_zero.mpr (by omega : e - s + 1 ≤ 0),
      List.take_zero]

/-- C3: serving a file under a Range header whose start parsed to `s`:
if `s ≥ fileSize` the response is 416; otherwise, with the parsed end `e`
(defaulting to `fileSize - 1` when the end part is absent or empty), the
response is 206 with `Content-Range: bytes s-e/fileSize`, `Content-Length
= e - s + 1`, and a body that is exactly the inclusive byte span
`[s, e]` of the file. -/
theorem serve_range_spec (file : List Nat) (parts : List (List Char)) (s : Int)
    (hs : parseStart parts = some s) (hs0 : 0 ≤ s) :
    ((file.length : Int) ≤ s → serveWithParts file parts = ⟨416, none, none, none, []⟩)
    ∧ (s < (file.length : Int) → ∀ e, parseEnd parts (file.length : Int) = some e →
        (serveWithParts file parts).status = 206
        ∧ (serveWithParts file parts).contentRange
            = some ("bytes " ++ s.repr ++ "-" ++ e.repr ++ "/" ++ ((file.length : Int)).repr)
        ∧ (serveWithParts file parts).acceptRanges = some "bytes"
        ∧ (serveWithParts file parts).contentLength = some (e - s + 1)
        ∧ (serveWithParts file parts).body = (file.drop s.toNat).take (e - s + 1).toNat)
    ∧ ((parts[1]? = none ∨ parts[1]? = some []) →
        parseEnd parts (file.length : Int) = some ((file.length : Int) - 1)) := by
  refine ⟨fun h => serveWithParts_416 file parts s hs h, ?_, ?_⟩
  · intro hlt e he
    have heq := serveWithParts_parsed file parts s e hs he
    rw [if_neg (not_le.mpr hlt)] at heq
    rw [heq]
    exact ⟨rfl, rfl, rfl, rfl, readStreamSlice_eq file s e hs0⟩
  · intro hd
    rcases hd with hd | hd
    · simp [parseEnd, hd]
    · simp [parseEnd, hd]

/-- C3 witness: a five-byte file under `bytes=1-3` (via the full header
parse) answers 206 with length 3 and the exact slice, and `bytes=9-`
style oversized starts answer 416. -/
theorem serve_range_spec_witness :
    (serveWithParts [10, 11, 12, 13, 14] [['1'], ['3']]).status = 206
    ∧ (serveWithParts [10, 11, 12, 13, 14] [['1'], ['3']]).contentRange = some "bytes 1-3/5"
    ∧ (serveWithParts [10, 11, 12, 13, 14] [['1'], ['3']]).contentLength = some 3
    ∧ (serveWithParts [10, 11, 12, 13, 14] [['1'], ['3']]).body = [11, 12, 13]
    ∧ serveWithParts [10, 11, 12, 13, 14] [['9']] = ⟨416, none, none, none, []⟩
    ∧ serveRecording [10, 11, 12, 13, 14] (some "bytes=1-3")
        = serveWithParts [10, 11, 12, 13, 14] [['1'], ['3']] := by
  have h := serve_range_spec [10, 11, 12, 13, 14] [['1'], ['3']] 1 (by decide) (by decide)
  have h2 := h.2.1 (by decide) 3 (by decide)
  have h9 := serve_range_spec [10, 11, 12, 13, 14] [['9']] 9 (by decide) (by decide)
  refine ⟨h2.1, h2.2.1.trans (by decide), h2.2.2.2.1.trans (by decide),
    h2.2.2.2.2.trans (by decide), h9.1 (by decide), by decide⟩

end CCTV
